import Mathlib

/-!
Verification of the selector-derivation core of the `managed_basis` repository.

The program (`src/error_hashes.py`) iterates a fixed list of Solidity error
signatures, computes the Keccak-256 hash of each signature's UTF-8 bytes,
truncates it to 4 bytes, and prints `<signature>: 0x<8 lowercase hex digits>`.
A second script (`src/router/inch.py`) validates a parsed swap-quote request
for five required fields before issuing a single upstream HTTP request.

Bytes are modelled as `Nat` values below 256; 64-bit lanes as `Nat` values
below 2^64 with explicit reduction modulo 2^64 where overflow matters.
-/

set_option maxRecDepth 1000000

/-- Rotate a 64-bit lane left by `n` (for `n ≤ 63`), reduced modulo 2^64. -/
def rotl64 (x n : Nat) : Nat :=
  ((x <<< n) % 18446744073709551616) ||| (x >>> (64 - n))

/-- Bitwise complement within 64 bits. -/
def bnot64 (x : Nat) : Nat :=
  x ^^^ 18446744073709551615

/-- The 24 round constants of the Keccak-f[1600] permutation. -/
def keccakRC : List Nat :=
  [1, 32898, 9223372036854808714,
   9223372039002292224, 32907, 2147483649,
   9223372039002292353, 9223372036854808585, 138,
   136, 2147516425, 2147483658,
   2147516555, 9223372036854775947, 9223372036854808713,
   9223372036854808579, 9223372036854808578, 9223372036854775936,
   32778, 9223372039002259466, 9223372039002292353,
   9223372036854808704, 2147483649, 9223372039002292232]

/-- Modelled from the spec: one round (θ, ρ, π, χ, ι) of the standard
Keccak-f[1600] permutation, on a state of 25 lanes listed as
`A[x,y]` at index `x + 5*y`.  The concrete hash implementation is the
`eth_utils.keccak` library primitive, absent from `src/`; the spec names it
as "the cryptographic hash (256-bit output)", i.e. Keccak-256, and the
embedding below is pinned to the standard Keccak-256 test vectors. -/
def keccakRound (rc : Nat) (s : List Nat) : List Nat :=
  match s with
  | a0 :: a1 :: a2 :: a3 :: a4 :: a5 :: a6 :: a7 :: a8 :: a9 :: a10 :: a11 :: a12 :: a13 :: a14 :: a15 :: a16 :: a17 :: a18 :: a19 :: a20 :: a21 :: a22 :: a23 :: a24 :: _ =>
    let c0 := a0 ^^^ a5 ^^^ a10 ^^^ a15 ^^^ a20
    let c1 := a1 ^^^ a6 ^^^ a11 ^^^ a16 ^^^ a21
    let c2 := a2 ^^^ a7 ^^^ a12 ^^^ a17 ^^^ a22
    let c3 := a3 ^^^ a8 ^^^ a13 ^^^ a18 ^^^ a23
    let c4 := a4 ^^^ a9 ^^^ a14 ^^^ a19 ^^^ a24
    let d0 := c4 ^^^ rotl64 c1 1
    let d1 := c0 ^^^ rotl64 c2 1
    let d2 := c1 ^^^ rotl64 c3 1
    let d3 := c2 ^^^ rotl64 c4 1
    let d4 := c3 ^^^ rotl64 c0 1
    let t0 := a0 ^^^ d0
    let t1 := a1 ^^^ d1
    let t2 := a2 ^^^ d2
    let t3 := a3 ^^^ d3
    let t4 := a4 ^^^ d4
    let t5 := a5 ^^^ d0
    let t6 := a6 ^^^ d1
    let t7 := a7 ^^^ d2
    let t8 := a8 ^^^ d3
    let t9 := a9 ^^^ d4
    let t10 := a10 ^^^ d0
    let t11 := a11 ^^^ d1
    let t12 := a12 ^^^ d2
    let t13 := a13 ^^^ d3
    let t14 := a14 ^^^ d4
    let t15 := a15 ^^^ d0
    let t16 := a16 ^^^ d1
    let t17 := a17 ^^^ d2
    let t18 := a18 ^^^ d3
    let t19 := a19 ^^^ d4
    let t20 := a20 ^^^ d0
    let t21 := a21 ^^^ d1
    let t22 := a22 ^^^ d2
    let t23 := a23 ^^^ d3
    let t24 := a24 ^^^ d4
    let b0 := t0
    let b1 := rotl64 t6 44
    let b2 := rotl64 t12 43
    let b3 := rotl64 t18 21
    let b4 := rotl64 t24 14
    let b5 := rotl64 t3 28
    let b6 := rotl64 t9 20
    let b7 := rotl64 t10 3
    let b8 := rotl64 t16 45
    let b9 := rotl64 t22 61
    let b10 := rotl64 t1 1
    let b11 := rotl64 t7 6
    let b12 := rotl64 t13 25
    let b13 := rotl64 t19 8
    let b14 := rotl64 t20 18
    let b15 := rotl64 t4 27
    let b16 := rotl64 t5 36
    let b17 := rotl64 t11 10
    let b18 := rotl64 t17 15
    let b19 := rotl64 t23 56
    let b20 := rotl64 t2 62
    let b21 := rotl64 t8 55
    let b22 := rotl64 t14 39
    let b23 := rotl64 t15 41
    let b24 := rotl64 t21 2
    let e0 := b0 ^^^ (bnot64 b1 &&& b2)
    let e1 := b1 ^^^ (bnot64 b2 &&& b3)
    let e2 := b2 ^^^ (bnot64 b3 &&& b4)
    let e3 := b3 ^^^ (bnot64 b4 &&& b0)
    let e4 := b4 ^^^ (bnot64 b0 &&& b1)
    let e5 := b5 ^^^ (bnot64 b6 &&& b7)
    let e6 := b6 ^^^ (bnot64 b7 &&& b8)
    let e7 := b7 ^^^ (bnot64 b8 &&& b9)
    let e8 := b8 ^^^ (bnot64 b9 &&& b5)
    let e9 := b9 ^^^ (bnot64 b5 &&& b6)
    let e10 := b10 ^^^ (bnot64 b11 &&& b12)
    let e11 := b11 ^^^ (bnot64 b12 &&& b13)
    let e12 := b12 ^^^ (bnot64 b13 &&& b14)
    let e13 := b13 ^^^ (bnot64 b14 &&& b10)
    let e14 := b14 ^^^ (bnot64 b10 &&& b11)
    let e15 := b15 ^^^ (bnot64 b16 &&& b17)
    let e16 := b16 ^^^ (bnot64 b17 &&& b18)
    let e17 := b17 ^^^ (bnot64 b18 &&& b19)
    let e18 := b18 ^^^ (bnot64 b19 &&& b15)
    let e19 := b19 ^^^ (bnot64 b15 &&& b16)
    let e20 := b20 ^^^ (bnot64 b21 &&& b22)
    let e21 := b21 ^^^ (bnot64 b22 &&& b23)
    let e22 := b22 ^^^ (bnot64 b23 &&& b24)
    let e23 := b23 ^^^ (bnot64 b24 &&& b20)
    let e24 := b24 ^^^ (bnot64 b20 &&& b21)
    [e0 ^^^ rc, e1, e2, e3, e4, e5, e6, e7, e8, e9, e10, e11, e12, e13, e14, e15, e16, e17, e18, e19, e20, e21, e22, e23, e24]
  | _ => []

/-- The full permutation: 24 rounds with the standard round constants. -/
def keccakF (s : List Nat) : List Nat :=
  keccakRC.foldl (fun st rc => keccakRound rc st) s

/-- Multi-rate padding `pad10*1` with the original-Keccak domain byte `0x01`,
for the Keccak-256 rate of 136 bytes. -/
def pad101 (msg : List Nat) : List Nat :=
  let padlen := 136 - msg.length % 136
  if padlen = 1 then msg ++ [0x81]
  else msg ++ [0x01] ++ List.replicate (padlen - 2) 0 ++ [0x80]

/-- A 64-bit lane from (at most) 8 bytes, little-endian. -/
def laneOfBytes (bs : List Nat) : Nat :=
  bs.foldr (fun b acc => acc * 256 + b) 0

/-- The 8 little-endian bytes of a 64-bit lane. -/
def laneBytes (v : Nat) : List Nat :=
  (List.range 8).map fun k => (v >>> (8 * k)) % 256

/-- XOR one 136-byte block into the first 17 lanes and permute. -/
def absorbBlock (s : List Nat) (block : List Nat) : List Nat :=
  let lanes := (List.range 17).map fun i => laneOfBytes ((block.drop (8 * i)).take 8)
  keccakF ((List.range 25).map fun i => s.getD i 0 ^^^ lanes.getD i 0)

/-- Absorb the padded message 136 bytes at a time.  The first argument is
fuel bounding the number of blocks; calling with the message length is
always sufficient since every step consumes at least one byte. -/
def absorbBlocks : Nat → List Nat → List Nat → List Nat
  | _, s, [] => s
  | 0, s, _ => s
  | fuel + 1, s, p => absorbBlocks fuel (absorbBlock s (p.take 136)) (p.drop 136)

/-- The all-zero initial sponge state. -/
def stateZero : List Nat := List.replicate 25 0

/-- Modelled from the spec: Keccak-256 of a byte sequence — pad, absorb at
rate 136, and squeeze the first 32 bytes (lanes 0–3, little-endian each). -/
def keccak256 (msg : List Nat) : List Nat :=
  let p := pad101 msg
  let s := absorbBlocks p.length stateZero p
  laneBytes (s.getD 0 0) ++ laneBytes (s.getD 1 0) ++
    laneBytes (s.getD 2 0) ++ laneBytes (s.getD 3 0)

/-- Keccak-256 of the empty byte sequence is the standard reference digest
`c5d246...a470`. -/
theorem keccak256_nil :
    keccak256 [] =
      [0xc5, 0xd2, 0x46, 0x01, 0x86, 0xf7, 0x23, 0x3c,
       0x92, 0x7e, 0x7d, 0xb2, 0xdc, 0xc7, 0x03, 0xc0,
       0xe5, 0x00, 0xb6, 0x53, 0xca, 0x82, 0x27, 0x3b,
       0x7b, 0xfa, 0xd8, 0x04, 0x5d, 0x85, 0xa4, 0x70] := by
  decide

/-- Keccak-256 of "abc" (bytes 0x61 0x62 0x63) is the standard reference
digest `4e0365...2d6c45`. -/
theorem keccak256_abc :
    keccak256 [0x61, 0x62, 0x63] =
      [0x4e, 0x03, 0x65, 0x7a, 0xea, 0x45, 0xa9, 0x4f,
       0xc7, 0xd4, 0x7b, 0xa8, 0x26, 0xc8, 0xd6, 0x67,
       0xc0, 0xd1, 0xe6, 0xe3, 0x3a, 0x64, 0xa0, 0x36,
       0xec, 0x44, 0xf5, 0x8f, 0xa1, 0x2d, 0x6c, 0x45] := by
  decide

/-- UTF-8 encoding of a single code point, as Python's `str.encode("utf-8")`
produces per character (the source calls `keccak(text=signature)`, which
encodes the signature as UTF-8). -/
def utf8EncodeChar (c : Nat) : List Nat :=
  if c < 128 then [c]
  else if c < 2048 then [192 + c / 64, 128 + c % 64]
  else if c < 65536 then
    [224 + c / 4096, 128 + (c / 64) % 64, 128 + c % 64]
  else
    [240 + c / 262144, 128 + (c / 4096) % 64, 128 + (c / 64) % 64, 128 + c % 64]

/-- The UTF-8 byte encoding of a string. -/
def strBytes (s : String) : List Nat :=
  s.data.flatMap fun c => utf8EncodeChar c.toNat

/-- `src/error_hashes.py` lines 51-52 on raw bytes: `keccak(...)[:4]` — the
first 4 bytes of the Keccak-256 digest, in the order the hash emits them. -/
def keccakSelector (bs : List Nat) : List Nat :=
  (keccak256 bs).take 4

/-- The spec's `derive_selector`: the source's `keccak(text=signature)`
followed by `hash_bytes[:4]` (lines 51-52 of `src/error_hashes.py`). -/
def derive_selector (s : String) : List Nat :=
  keccakSelector (strBytes s)

/-- Lowercase hexadecimal digit for a value below 16, as Python's
`bytes.hex` emits. -/
def hexDigit (n : Nat) : Char :=
  if n < 10 then Char.ofNat (48 + n) else Char.ofNat (87 + n)

/-- The two lowercase hex characters of one byte. -/
def byteHexChars (b : Nat) : List Char :=
  [hexDigit (b / 16), hexDigit (b % 16)]

/-- `bytes.hex()`: lowercase hexadecimal of a byte sequence, two digits per
byte, no separators, in byte order. -/
def bytesHex (bs : List Nat) : String :=
  String.mk (bs.flatMap byteHexChars)

/-- The list of 42 error signatures of `src/error_hashes.py` lines 4-47,
in source order. -/
def error_signatures : List String :=
  ["ZeroShares()",
   "RequestNotExecuted()",
   "RequestAlreadyClaimed()",
   "UnauthorizedClaimer(address,address)",
   "InchSwapInvailidTokens()",
   "InchSwapAmountExceedsBalance(uint256,uint256)",
   "InchInvalidReceiver()",
   "InchInvalidAmount(uint256,uint256)",
   "IncosistentParamsLength()",
   "CallerNotFactory()",
   "CallerNotStrategy()",
   "CallerNotKeeper()",
   "InvalidMarket()",
   "InvalidInitializationAssets()",
   "CallbackNotAllowed()",
   "ZeroAddress()",
   "ArrayLengthMissmatch()",
   "AlreadyPending()",
   "InvalidFeedPrice(address,int256)",
   "PriceFeedNotUpdated(address,uint256,uint256)",
   "PriceFeedNotConfigured()",
   "EmptyPriceFeedMultiplier(address)",
   "InsufficientExecutionFee(uint256,uint256)",
   "OracleInvalidPrice()",
   "InsufficientIdleBalanceForUtilize(uint256,uint256)",
   "InsufficientProdcutBalanceForDeutilize(uint256,uint256)",
   "UnsupportedSwapType()",
   "UnAuthorizedForwarder(address)",
   "NotPositivePnl()",
   "ActiveRequestIsNotClosed(bytes32)",
   "StatusNotIdle()",
   "ZeroPendingUtilization()",
   "ZeroAmountUtilization()",
   "CallerNotPositionManager()",
   "CallerNotAgent()",
   "InvalidRequestId(bytes32,bytes32)",
   "InvalidCallback()",
   "InvalidActiveRequestType()",
   "InsufficientCollateralBalance(uint256,uint256)",
   "NoActiveRequests()",
   "CallerNotOperator()",
   "InvalidStrategyStatus(uint8)"]

/-- One printed line of the loop in `src/error_hashes.py` lines 50-53:
`f"{signature}: 0x{selector}"` where `selector = hash_bytes[:4].hex()`. -/
def reportLine (s : String) : String :=
  s ++ ": 0x" ++ bytesHex (derive_selector s)

/-- The spec's `report_all`: pair each declaration, in input order, with
its derived selector. -/
def report_all (ds : List String) : List (String × List Nat) :=
  ds.map fun d => (d, derive_selector d)

/-- The printed output of the loop in `src/error_hashes.py` lines 50-53,
one line per declaration in input order. -/
def report_lines (ds : List String) : List String :=
  ds.map reportLine

/-- The Keccak-256 digest is always 32 bytes long. -/
theorem keccak256_length (msg : List Nat) : (keccak256 msg).length = 32 := by
  simp [keccak256, laneBytes]

/-- A derived selector is always 4 bytes long. -/
theorem derive_selector_length (d : String) : (derive_selector d).length = 4 := by
  simp [derive_selector, keccakSelector, List.length_take, keccak256_length]

/-- Every byte of a lane decomposition is below 256. -/
theorem laneBytes_lt (v : Nat) : ∀ b ∈ laneBytes v, b < 256 := by
  intro b hb
  simp only [laneBytes, List.mem_map, List.mem_range] at hb
  obtain ⟨k, _, rfl⟩ := hb
  exact Nat.mod_lt _ (by omega)

/-- Every byte of a Keccak-256 digest is below 256. -/
theorem keccak256_bytes_lt (msg : List Nat) : ∀ b ∈ keccak256 msg, b < 256 := by
  intro b hb
  simp only [keccak256, List.mem_append] at hb
  rcases hb with ((h | h) | h) | h <;> exact laneBytes_lt _ b h

/-- Every byte of a derived selector is below 256. -/
theorem derive_selector_bytes_lt (d : String) :
    ∀ b ∈ derive_selector d, b < 256 := by
  intro b hb
  exact keccak256_bytes_lt _ b (List.take_subset _ _ hb)

/--
C1: for every declaration string `d`, `derive_selector d` is the first 4
bytes of the Keccak-256 digest of `d`'s byte encoding, in digest order with
no byte-reversal and no re-hashing; in particular
`derive_selector "ZeroAddress()"` equals the reference value `0xd92e233d`,
the first 4 bytes of the full reference digest `d92e23...8c73`.
-/
theorem C1_selector_is_truncated_keccak :
    (∀ d : String, derive_selector d = (keccak256 (strBytes d)).take 4) ∧
    keccak256 (strBytes "ZeroAddress()") =
      [0xd9, 0x2e, 0x23, 0x3d, 0xf2, 0x71, 0x7d, 0x4a,
       0x40, 0x03, 0x0e, 0x20, 0x90, 0x4a, 0xbd, 0x27,
       0xb6, 0x8f, 0xcb, 0xee, 0xde, 0x11, 0x7e, 0xaa,
       0xcc, 0xbb, 0xda, 0xc9, 0x61, 0x8c, 0x8c, 0x73] ∧
    derive_selector "ZeroAddress()" = [0xd9, 0x2e, 0x23, 0x3d] :=
  ⟨fun _ => rfl, by decide, by decide⟩

/--
C2: `report_all` preserves length and positional order of the input
declarations — no entry is skipped.
-/
theorem C2_report_all_preserves_order (S : List String) :
    (report_all S).length = S.length ∧ (report_all S).map Prod.fst = S := by
  refine ⟨by simp [report_all], ?_⟩
  simp only [report_all, List.map_map]
  exact List.map_id'' (fun _ => rfl) S

/--
C3: selector derivation is total — for every byte sequence it returns a
4-byte selector; the empty string is hashed as the empty byte sequence, and
that case computes (to the first 4 bytes of the reference empty-input
digest) rather than failing.
-/
theorem C3_selector_total :
    (∀ bs : List Nat, (keccakSelector bs).length = 4) ∧
    strBytes "" = [] ∧
    derive_selector "" = keccakSelector [] ∧
    keccakSelector [] = [0xc5, 0xd2, 0x46, 0x01] := by
  refine ⟨fun bs => ?_, rfl, rfl, by decide⟩
  simp [keccakSelector, List.length_take, keccak256_length]

/--
C5: selector derivation is deterministic — repeated evaluations on the same
declaration agree, and the result depends only on the declaration.
-/
theorem C5_deterministic :
    (∀ d : String, derive_selector d = derive_selector d) ∧
    (∀ d₁ d₂ : String, d₁ = d₂ → derive_selector d₁ = derive_selector d₂) :=
  ⟨fun _ => rfl, fun _ _ h => h ▸ rfl⟩

/-- Witness for C5 at the first registry entry. -/
theorem C5_deterministic_witness :
    ("ZeroShares()" : String) = "ZeroShares()" ∧
    derive_selector "ZeroShares()" = derive_selector "ZeroShares()" :=
  ⟨rfl, C5_deterministic.2 "ZeroShares()" "ZeroShares()" rfl⟩

/--
C8: for every declaration string `d`, `derive_selector d` is exactly 4
bytes long.
-/
theorem C8_selector_length_four (d : String) :
    (derive_selector d).length = 4 :=
  derive_selector_length d

/--
C9: reporting over the empty registry yields the empty sequence (both as
pairs and as printed lines), not an error.
-/
theorem C9_empty_registry :
    report_all [] = [] ∧ report_lines [] = [] :=
  ⟨rfl, rfl⟩

/--
C10: a duplicated declaration is processed independently at each
occurrence — `report_all [d, d]` has exactly two entries, each pairing `d`
with the same selector.
-/
theorem C10_duplicates_kept (d : String) :
    report_all [d, d] = [(d, derive_selector d), (d, derive_selector d)] ∧
    (report_all [d, d]).length = 2 :=
  ⟨rfl, rfl⟩

/-- Whether a character is a lowercase hexadecimal digit (`0`-`9`, `a`-`f`). -/
def isHexLowerDigit (c : Char) : Bool :=
  (48 ≤ c.toNat && c.toNat ≤ 57) || (97 ≤ c.toNat && c.toNat ≤ 102)

/-- The value of a lowercase hexadecimal digit. -/
def hexVal (c : Char) : Nat :=
  if c.toNat ≤ 57 then c.toNat - 48 else c.toNat - 87

/-- Decode a lowercase hexadecimal character sequence back to bytes, two
characters per byte, most significant digit first. -/
def hexDecode : List Char → List Nat
  | c1 :: c2 :: rest => (hexVal c1 * 16 + hexVal c2) :: hexDecode rest
  | _ => []

/-- `hexDigit` emits lowercase hexadecimal characters on values below 16. -/
theorem hexDigit_isLower : ∀ n, n < 16 → isHexLowerDigit (hexDigit n) = true := by
  decide

/-- `hexVal` inverts `hexDigit` on values below 16. -/
theorem hexVal_hexDigit : ∀ n, n < 16 → hexVal (hexDigit n) = n := by
  decide

/-- Decoding the two hex characters of a byte below 256 recovers the byte. -/
theorem hexDecode_byteHexChars (b : Nat) (hb : b < 256) (rest : List Char) :
    hexDecode (byteHexChars b ++ rest) = b :: hexDecode rest := by
  simp only [byteHexChars, List.cons_append, List.nil_append, hexDecode]
  rw [hexVal_hexDigit _ (by omega), hexVal_hexDigit _ (by omega)]
  congr 1
  omega

/-- Decoding the hex encoding of a byte sequence (all bytes below 256)
recovers the byte sequence. -/
theorem hexDecode_flatMap (bs : List Nat) (h : ∀ b ∈ bs, b < 256) :
    hexDecode (bs.flatMap byteHexChars) = bs := by
  induction bs with
  | nil => rfl
  | cons b rest ih =>
    rw [List.flatMap_cons, hexDecode_byteHexChars b (h b (by simp)) _,
      ih fun x hx => h x (by simp [hx])]

/-- The hex encoding of a byte sequence has two characters per byte. -/
theorem length_flatMap_byteHexChars (bs : List Nat) :
    (bs.flatMap byteHexChars).length = 2 * bs.length := by
  induction bs with
  | nil => rfl
  | cons b rest ih =>
    rw [List.flatMap_cons, List.length_append, ih]
    simp only [byteHexChars, List.length_cons, List.length_nil, List.length_cons]
    omega

/-- Every character of the hex encoding of a byte sequence (all bytes below
256) is a lowercase hexadecimal digit. -/
theorem flatMap_byteHexChars_lower (bs : List Nat) (h : ∀ b ∈ bs, b < 256) :
    (bs.flatMap byteHexChars).all isHexLowerDigit = true := by
  rw [List.all_eq_true]
  intro c hc
  rw [List.mem_flatMap] at hc
  obtain ⟨b, hb, hcb⟩ := hc
  have hb256 := h b hb
  simp only [byteHexChars, List.mem_cons, List.not_mem_nil, or_false] at hcb
  rcases hcb with rfl | rfl
  · exact hexDigit_isLower _ (by omega)
  · exact hexDigit_isLower _ (by omega)

/--
C4: the reported output for the registry is, in input order, the line
`<declaration>: 0x<hex>` for each declaration, where `<hex>` is 8
characters long, every character is a lowercase hexadecimal digit, and the
8 digits decode back to the 4 selector bytes in digest order (so they are
exactly the lowercase hex encoding of the selector, with no separators).
-/
theorem C4_report_line_format :
    report_lines error_signatures =
      error_signatures.map (fun d => d ++ ": 0x" ++ bytesHex (derive_selector d)) ∧
    (∀ d : String, (bytesHex (derive_selector d)).data.length = 8) ∧
    (∀ d : String, (bytesHex (derive_selector d)).data.all isHexLowerDigit = true) ∧
    (∀ d : String, hexDecode (bytesHex (derive_selector d)).data = derive_selector d) := by
  refine ⟨rfl, fun d => ?_, fun d => ?_, fun d => ?_⟩
  · show (((derive_selector d).flatMap byteHexChars)).length = 8
    rw [length_flatMap_byteHexChars, derive_selector_length]
  · exact flatMap_byteHexChars_lower _ (derive_selector_bytes_lt d)
  · exact hexDecode_flatMap _ (derive_selector_bytes_lt d)

/-- The five required request fields of `src/router/inch.py` lines 12 and
20-31, in the order the script checks them. -/
def requiredFields : List String :=
  ["src", "dst", "amount", "from", "slippage"]

/-- The validation chain of `src/router/inch.py` lines 20-31 on the keys of
the parsed JSON object: an empty object, or any missing required field,
raises `ValueError` with the corresponding message. -/
def validateSwapData (keys : List String) : Except String Unit :=
  if keys.isEmpty then .error "Invalid json data"
  else if !keys.contains "src" then .error "Invalid json data, src is required"
  else if !keys.contains "dst" then .error "Invalid json data, dst is required"
  else if !keys.contains "amount" then .error "Invalid json data, amount is required"
  else if !keys.contains "from" then .error "Invalid json data, from is required"
  else if !keys.contains "slippage" then .error "Invalid json data, slippage is required"
  else .ok ()

/-- Outcome of the single upstream `requests.get` call of
`src/router/inch.py` line 54, supplied as an oracle. -/
inductive UpstreamResult where
  | ok (resp : String)
  | fail (err : String)
deriving DecidableEq

/-- Observable outcome of running the script's main flow. -/
inductive SwapOutcome where
  | validationError (msg : String)
  | upstreamError (err : String)
  | success (resp : String)
deriving DecidableEq

/-- The main flow of `src/router/inch.py` lines 20-54 after JSON parsing:
validate the request object's keys, and only if validation passes issue
exactly one upstream request, whose failure propagates uncaught.  The
second component counts the network calls attempted. -/
def runSwapQuote (keys : List String) (upstream : UpstreamResult) :
    SwapOutcome × Nat :=
  match validateSwapData keys with
  | .error m => (.validationError m, 0)
  | .ok _ =>
    match upstream with
    | .fail e => (.upstreamError e, 1)
    | .ok r => (.success r, 1)

/-- If validation succeeds, every required field is present. -/
theorem validate_ok_contains (keys : List String)
    (h : validateSwapData keys = .ok ()) :
    keys.contains "src" = true ∧ keys.contains "dst" = true ∧
    keys.contains "amount" = true ∧ keys.contains "from" = true ∧
    keys.contains "slippage" = true := by
  unfold validateSwapData at h
  split_ifs at h
  all_goals simp_all

/--
C6: in the swap-quote collaborator, a parsed request object missing any of
the required fields `src`, `dst`, `amount`, `from`, `slippage` produces a
`ValueError` before any network call is attempted (zero calls); and when
validation passes, an upstream request failure is surfaced as-is after
exactly one attempt — neither retried nor recovered.
-/
theorem C6_validation_before_network :
    (∀ (keys : List String) (upstream : UpstreamResult) (f : String),
        f ∈ requiredFields → keys.contains f = false →
        ∃ m, runSwapQuote keys upstream = (.validationError m, 0)) ∧
    (∀ (keys : List String) (e : String),
        validateSwapData keys = .ok () →
        runSwapQuote keys (.fail e) = (.upstreamError e, 1)) := by
  constructor
  · intro keys upstream f hf hnc
    have hne : ∀ u : Unit, validateSwapData keys ≠ .ok u := by
      intro u hok
      have hc := validate_ok_contains keys hok
      simp only [requiredFields, List.mem_cons, List.not_mem_nil, or_false] at hf
      rcases hf with rfl | rfl | rfl | rfl | rfl <;> simp_all
    cases hval : validateSwapData keys with
    | error m => exact ⟨m, by simp [runSwapQuote, hval]⟩
    | ok u => exact absurd hval (hne u)
  · intro keys e h
    simp [runSwapQuote, h]

/-- Witness for C6: the empty object is rejected with no network call, and
a well-formed request surfaces an upstream failure after one attempt. -/
theorem C6_validation_before_network_witness :
    (("src" ∈ requiredFields) ∧ ([] : List String).contains "src" = false ∧
      ∃ m, runSwapQuote [] (.ok "resp") = (.validationError m, 0)) ∧
    (validateSwapData ["src", "dst", "amount", "from", "slippage"] = .ok () ∧
      runSwapQuote ["src", "dst", "amount", "from", "slippage"] (.fail "timeout") =
        (.upstreamError "timeout", 1)) :=
  ⟨⟨by decide, rfl, C6_validation_before_network.1 [] (.ok "resp") "src" (by decide) rfl⟩,
   ⟨rfl, C6_validation_before_network.2 ["src", "dst", "amount", "from", "slippage"]
      "timeout" rfl⟩⟩

/--
C7 counterexample: the claim speaks of "the 43 concrete declaration strings
in the error_signatures registry", but the registry holds 42 declarations,
so the claim as stated (43 entries, pairwise-distinct selectors) is false.
-/
theorem C7_counterexample :
    ¬(error_signatures.length = 43 ∧
      (error_signatures.map derive_selector).Nodup) := by
  intro h
  have h1 := h.1
  rw [show error_signatures.length = 42 from rfl] at h1
  exact absurd h1 (by decide)

/--
C7 (amended): the 42 concrete declaration strings of the
`error_signatures` registry yield pairwise-distinct 4-byte selectors — no
truncated-hash collision occurs in this fixed registry.
-/
theorem C7_registry_selectors_distinct :
    error_signatures.length = 42 ∧
    (error_signatures.map derive_selector).Nodup := by
  refine ⟨rfl, ?_⟩
  decide
